import Mathlib

/-!
Verification of the capture-to-translation pipeline of the screen-translator
application (sources: src/main.py and screen_translator.py).

Python strings are embedded as lists of characters (Str).  The worker
`TranslationWorker.run` and the scheduler entry point
`MainApplication.trigger_translation` are embedded as pure functions over an
explicit environment that carries the results of the external effects
(image decoding, OCR, JPEG encoding, the HTTP round trip, screen capture).
Every definition is translated line by line from the Python source.
-/

set_option linter.unusedVariables false

abbrev Str := List Char

/-- Characters stripped by Python str.strip() (ASCII whitespace). -/
def isPySpace (c : Char) : Bool :=
  c = ' ' || c = '\t' || c = '\n' || c = '\r' || c = Char.ofNat 11 || c = Char.ofNat 12

/-- Python str.strip(): drop leading and trailing whitespace. -/
def pyStrip (s : Str) : Str :=
  ((s.dropWhile isPySpace).reverse.dropWhile isPySpace).reverse

/-- Python str.rstrip('/'): drop all trailing slash characters. -/
def rstripSlash (s : Str) : Str :=
  (s.reverse.dropWhile (fun c => c = '/')).reverse

/-- The literal completions sub-path appended during endpoint normalization. -/
def chatCompletionsPath : Str := "/chat/completions".data

/-- Endpoint normalization, from TranslationWorker.run
(src/main.py lines 332-335, screen_translator.py lines 275-278):
if api_base already ends with "/chat/completions" use it verbatim,
otherwise strip trailing slashes and append the sub-path. -/
def normalizeEndpoint (api_base : Str) : Str :=
  if chatCompletionsPath.isSuffixOf api_base then api_base
  else rstripSlash api_base ++ chatCompletionsPath

/-- Proxy normalization, from TranslationWorker.run
(src/main.py lines 325-330, screen_translator.py lines 269-273):
proxies_arg starts as None; a non-blank proxy string is stripped and,
when it does not start with "http", prefixed with "http://". -/
def normalizeProxy (proxy : Str) : Option Str :=
  let proxy_url := pyStrip proxy
  if proxy_url ≠ [] ∧ pyStrip proxy_url ≠ [] then
    let p_url := pyStrip proxy_url
    if ("http".data.isPrefixOf p_url) then some p_url
    else some ("http://".data ++ p_url)
  else none

/-- Whether pat occurs as a contiguous sub-list of s. -/
def containsSub (pat s : Str) : Bool :=
  match s with
  | [] => pat.isPrefixOf []
  | _ :: t => pat.isPrefixOf s || containsSub pat t

/-- Rendering of the specification wording "carries a URL scheme": the string
contains the "://" separator.  Used only to compare the spec's description of
proxy normalization with the code's startswith("http") test. -/
def specHasUrlScheme (s : Str) : Bool := containsSub "://".data s

/-- Base64 alphabet (RFC 4648), used for the vision-mode data URI. -/
def base64Alphabet : Str :=
  "ABCDEFGHIJKLMNOPQRSTUVWXYZabcdefghijklmnopqrstuvwxyz0123456789+/".data

def b64Char (n : Nat) : Char := base64Alphabet.getD (n % 64) 'A'

/-- Standard base64 encoding of a byte list, as produced by Python
base64.b64encode. -/
def base64Encode : List Nat → Str
  | [] => []
  | [a] => [b64Char (a / 4), b64Char ((a % 4) * 16), '=', '=']
  | [a, b] => [b64Char (a / 4), b64Char ((a % 4) * 16 + b / 16),
               b64Char ((b % 16) * 4), '=']
  | a :: b :: c :: rest =>
      b64Char (a / 4) :: b64Char ((a % 4) * 16 + b / 16) ::
      b64Char ((b % 16) * 4 + c / 64) :: b64Char (c % 64) :: base64Encode rest

-- Helper lemmas about list suffix tests, used for endpoint idempotence.

theorem isPrefixOfAppendSelf {α : Type} [DecidableEq α] (a b : List α) :
    a.isPrefixOf (a ++ b) = true := by
  induction a with
  | nil => simp [List.isPrefixOf]
  | cons x xs ih => simp [List.isPrefixOf, ih]

theorem isSuffixOfAppendSelf {α : Type} [DecidableEq α] (p x : List α) :
    p.isSuffixOf (x ++ p) = true := by
  simp only [List.isSuffixOf, List.reverse_append]
  exact isPrefixOfAppendSelf p.reverse x.reverse

-- ==========================================================================
-- Data model of the worker (TranslationWorker.run, src/main.py lines 254-380)
-- ==========================================================================

/-- Token usage, as reported in the API response
("prompt_tokens" / "completion_tokens"). -/
structure Usage where
  prompt_tokens : Int
  completion_tokens : Int
deriving DecidableEq

/-- One part of a vision-mode message content array. -/
inductive ContentPart where
  | text (t : Str)
  | image_url (url : Str)
deriving DecidableEq

/-- Message content: a plain string (OCR mode) or a list of parts
(vision mode). -/
inductive MsgContent where
  | plain (t : Str)
  | parts (ps : List ContentPart)
deriving DecidableEq

structure ChatMessage where
  role : Str
  content : MsgContent
deriving DecidableEq

/-- The JSON body POSTed to the chat-completion endpoint
(src/main.py lines 344-348). -/
structure Payload where
  model : Str
  messages : List ChatMessage
  stream : Bool
deriving DecidableEq

/-- Result of extracting choices[0].message.content and usage from the 2xx
response JSON; content = none models any lookup/shape failure, which the
Python code turns into a Parse Error. -/
structure RespJson where
  content : Option Str
  usage : Option Usage
deriving DecidableEq

/-- The HTTP response as seen by the worker: httpx status_code, raw text and
the parsed JSON body (none when response.json() raises). -/
structure HttpResponse where
  status_code : Nat
  text : Str
  jsonBody : Option RespJson
deriving DecidableEq

/-- PIL image mode; only RGBA and P trigger the vision-mode flattening. -/
inductive ImageMode where
  | RGB | RGBA | P | L | other
deriving DecidableEq

/-- In-memory decoded image: its PIL mode and an opaque identifier for the
pixel content. -/
structure PILImage where
  mode : ImageMode
  pixels : Nat
deriving DecidableEq

/-- image.convert("RGB"): same picture, flattened to plain RGB. -/
def PILImage.convertRGB (img : PILImage) : PILImage := ⟨ImageMode.RGB, img.pixels⟩

/-- Read-only snapshot of the configuration keys the worker consumes. -/
structure Config where
  api_base : Str
  api_key : Str
  model : Str
  timeout : Int
  custom_prompt : Str
  proxy : Str
  advanced_mode : Bool

/-- Environment of one worker run: the outcomes of the external effects.
decoded is the result of Image.open (none = exception); ocr the result of
pytesseract.image_to_string on that image (error = engine exception);
jpegQ85 the quality-85 JPEG encoder applied during vision mode; response
the result of the HTTP round trip (error = transport exception / timeout). -/
structure WorkerEnv where
  decoded : Option PILImage
  ocr : Except Str Str
  jpegQ85 : PILImage → List Nat
  response : Except Str HttpResponse

/-- Terminal outcome of one worker run; each variant corresponds to one
distinct emit site in TranslationWorker.run. -/
inductive WorkerOutcome where
  | imageDecodeFailed
  | ocrFailed (msg : Str)
  | ocrEmpty
  | missingApiKey
  | networkFailed (msg : Str)
  | apiError (status : Nat) (body : Str)
  | parseFailed
  | finished (content : Str) (usage : Usage)
deriving DecidableEq

/-- Observable trace of one worker run: the terminal outcome, the message
list once built, the POSTed payload, the client proxy argument and target
URL once computed, and whether the network call was attempted. -/
structure RunTrace where
  outcome : WorkerOutcome
  messages : Option (List ChatMessage)
  request : Option Payload
  proxiesArg : Option (Option Str)
  targetUrl : Option Str
  networkCalled : Bool
deriving DecidableEq

/-- The data-URI scheme prefix used for the vision-mode image part. -/
def dataUriJpegHead : Str := "data:image/jpeg;base64,".data

/-- Vision-mode flattening (src/main.py lines 273-274): RGBA and palette
images are converted to plain RGB before JPEG encoding. -/
def flattenImage (image : PILImage) : PILImage :=
  if image.mode = ImageMode.RGBA ∨ image.mode = ImageMode.P
  then image.convertRGB else image

/-- The single vision-mode user message (src/main.py lines 276-295):
a text part with the custom prompt and an image_url part holding the
base64 data URI of the flattened, quality-85 JPEG re-encoding. -/
def visionMessage (cfg : Config) (env : WorkerEnv) (image : PILImage) : ChatMessage :=
  ⟨"user".data,
   MsgContent.parts [ContentPart.text cfg.custom_prompt,
     ContentPart.image_url
       (dataUriJpegHead ++ base64Encode (env.jpegQ85 (flattenImage image)))]⟩

/-- The single OCR-mode user message (src/main.py lines 312-313):
"{custom_prompt}\n\n{text}" with the stripped OCR text. -/
def ocrMessage (cfg : Config) (t : Str) : ChatMessage :=
  ⟨"user".data, MsgContent.plain (cfg.custom_prompt ++ "\n\n".data ++ t)⟩

/-- Request stage of TranslationWorker.run (src/main.py lines 315-376):
strip api_base/api_key, guard the blank key, normalize proxy and endpoint,
POST the payload, classify a non-200 status as an API error, parse the
2xx body. -/
def sendStage (cfg : Config) (env : WorkerEnv) (messages : List ChatMessage) :
    RunTrace :=
  if pyStrip cfg.api_key = [] then
    ⟨WorkerOutcome.missingApiKey, some messages, none, none, none, false⟩
  else
    match env.response with
    | Except.error e =>
      ⟨WorkerOutcome.networkFailed e, some messages,
        some ⟨cfg.model, messages, false⟩, some (normalizeProxy cfg.proxy),
        some (normalizeEndpoint (pyStrip cfg.api_base)), true⟩
    | Except.ok resp =>
      if resp.status_code ≠ 200 then
        ⟨WorkerOutcome.apiError resp.status_code resp.text, some messages,
          some ⟨cfg.model, messages, false⟩, some (normalizeProxy cfg.proxy),
          some (normalizeEndpoint (pyStrip cfg.api_base)), true⟩
      else
        match resp.jsonBody with
        | none =>
          ⟨WorkerOutcome.parseFailed, some messages,
            some ⟨cfg.model, messages, false⟩, some (normalizeProxy cfg.proxy),
            some (normalizeEndpoint (pyStrip cfg.api_base)), true⟩
        | some j =>
          match j.content with
          | none =>
            ⟨WorkerOutcome.parseFailed, some messages,
              some ⟨cfg.model, messages, false⟩, some (normalizeProxy cfg.proxy),
              some (normalizeEndpoint (pyStrip cfg.api_base)), true⟩
          | some c =>
            ⟨WorkerOutcome.finished c (j.usage.getD ⟨0, 0⟩), some messages,
              some ⟨cfg.model, messages, false⟩, some (normalizeProxy cfg.proxy),
              some (normalizeEndpoint (pyStrip cfg.api_base)), true⟩

/-- TranslationWorker.run (src/main.py lines 254-380), line by line:
decode the PNG bytes; in advanced (vision) mode build the two-part vision
message; in OCR mode run pytesseract, strip, reject empty text; then the
request stage.  screen_translator.py lines 243-324 is the same code
without the vision branch. -/
def TranslationWorker.run (cfg : Config) (env : WorkerEnv) : RunTrace :=
  match env.decoded with
  | none => ⟨WorkerOutcome.imageDecodeFailed, none, none, none, none, false⟩
  | some image =>
    if cfg.advanced_mode then
      sendStage cfg env [visionMessage cfg env image]
    else
      match env.ocr with
      | Except.error e => ⟨WorkerOutcome.ocrFailed e, none, none, none, none, false⟩
      | Except.ok t0 =>
        if pyStrip t0 = [] then
          ⟨WorkerOutcome.ocrEmpty, none, none, none, none, false⟩
        else sendStage cfg env [ocrMessage cfg (pyStrip t0)]

-- ==========================================================================
-- Scheduler (MainApplication.trigger_translation, src/main.py lines 815-859)
-- ==========================================================================

/-- Scheduler-visible state: self.worker is None until the first trigger;
afterwards some b where b embeds QThread.isRunning() of that worker. -/
structure AppState where
  worker : Option Bool
deriving DecidableEq

/-- The single-flight test of trigger_translation (src/main.py line 816):
self.worker is not None and self.worker.isRunning(). -/
def isWorkerRunning (st : AppState) : Bool :=
  match st.worker with
  | some b => b
  | none => false

/-- A monitored screen region [x, y, w, h] from the config. -/
structure Region where
  x : Int
  y : Int
  w : Int
  h : Int
deriving DecidableEq

inductive TriggerOutcome where
  | prevTask
  | noRegion
  | captureFailed (msg : Str)
  | started
deriving DecidableEq

/-- Environment of one trigger: the platform screen-capture result
(PNG bytes, or the exception raised while grabbing/encoding). -/
structure TriggerEnv where
  capture : Except Str (List Nat)

/-- Observable trace of one trigger: the outcome, the scheduler state after
the call, whether the capture stage ran, and whether a new worker thread was
started. -/
structure TriggerTrace where
  outcome : TriggerOutcome
  state : AppState
  captureInvoked : Bool
  workerStarted : Bool
deriving DecidableEq

/-- MainApplication.trigger_translation (src/main.py lines 815-859,
screen_translator.py lines 718-760): reject while a worker is running;
reject regions with w == 0 or h == 0; otherwise capture (platform branch
abstracted into env.capture) and on success start the worker thread. -/
def MainApplication.trigger_translation (st : AppState) (region : Region)
    (env : TriggerEnv) : TriggerTrace :=
  if isWorkerRunning st then
    ⟨TriggerOutcome.prevTask, st, false, false⟩
  else if region.w = 0 ∨ region.h = 0 then
    ⟨TriggerOutcome.noRegion, st, false, false⟩
  else
    match env.capture with
    | Except.error e => ⟨TriggerOutcome.captureFailed e, st, true, false⟩
    | Except.ok _ => ⟨TriggerOutcome.started, ⟨some true⟩, true, true⟩

/-- Framework semantics of worker termination: when the worker thread emits
its terminal outcome (finished or error signal) its run() has returned, so
QThread.isRunning() on the still-referenced worker object is false. -/
def onWorkerTerminal (st : AppState) : AppState :=
  ⟨st.worker.map (fun _ => false)⟩

-- ==========================================================================
-- Usage accounting (TokenManager, src/main.py lines 185-239)
-- ==========================================================================

/-- An input/output token counter pair, one value of the cost ledger. -/
structure Counters where
  input : Int
  output : Int
deriving DecidableEq

/-- The persisted cost.json content.  The file is loaded verbatim, so either
top-level key may be absent; record_usage re-creates absent keys. -/
structure TMData where
  history : Option (List (Str × Counters))
  total : Option Counters
deriving DecidableEq

/-- TokenManager state: the per-process session counters and the persisted
data. -/
structure TokenManager where
  session_input : Int
  session_output : Int
  data : TMData
deriving DecidableEq

/-- Lookup in the date-keyed history dict. -/
def histGet : List (Str × Counters) → Str → Option Counters
  | [], _ => none
  | (k, v) :: t, k1 => if k = k1 then some v else histGet t k1

/-- Dict assignment h[k] = v: replace the first binding of k, or append. -/
def histSet : List (Str × Counters) → Str → Counters → List (Str × Counters)
  | [], k, v => [(k, v)]
  | (k0, v0) :: t, k, v =>
      if k0 = k then (k, v) :: t else (k0, v0) :: histSet t k v

/-- The fallback ledger used when cost.json is absent or corrupt
(src/main.py line 201): {"history": {}, "total": {"input": 0, "output": 0}}. -/
def freshTMData : TMData := ⟨some [], some ⟨0, 0⟩⟩

/-- TokenManager.record_usage (src/main.py lines 210-229), line by line:
add to the session counters; ensure the history dict and today's bucket
exist; add to today's bucket; ensure the total dict exists; add to it.
today is the process-local calendar date string. -/
def TokenManager.record_usage (today : Str) (tm : TokenManager)
    (input_tokens output_tokens : Int) : TokenManager :=
  let si := tm.session_input + input_tokens
  let so := tm.session_output + output_tokens
  let hist0 := tm.data.history.getD []
  let hist1 := if (histGet hist0 today).isSome then hist0
               else histSet hist0 today ⟨0, 0⟩
  let cur := (histGet hist1 today).getD ⟨0, 0⟩
  let hist2 := histSet hist1 today
    ⟨cur.input + input_tokens, cur.output + output_tokens⟩
  let tot0 := tm.data.total.getD ⟨0, 0⟩
  let tot1 : Counters := ⟨tot0.input + input_tokens, tot0.output + output_tokens⟩
  ⟨si, so, ⟨some hist2, some tot1⟩⟩

/-- The three projections returned by TokenManager.get_stats
(src/main.py lines 231-239). -/
structure Stats where
  session : Counters
  today : Counters
  total : Counters
deriving DecidableEq

/-- TokenManager.get_stats: read-only projection of session, today's bucket
(default zero) and the grand total (default zero). -/
def TokenManager.get_stats (today : Str) (tm : TokenManager) : Stats :=
  ⟨⟨tm.session_input, tm.session_output⟩,
   (histGet (tm.data.history.getD []) today).getD ⟨0, 0⟩,
   tm.data.total.getD ⟨0, 0⟩⟩

/-- Ledger invariant claimed by the spec: the grand total is non-negative
and dominates every daily bucket. -/
def ledgerInv (tm : TokenManager) : Prop :=
  0 ≤ (tm.data.total.getD ⟨0, 0⟩).input ∧
  0 ≤ (tm.data.total.getD ⟨0, 0⟩).output ∧
  ∀ k v, histGet (tm.data.history.getD []) k = some v →
    v.input ≤ (tm.data.total.getD ⟨0, 0⟩).input ∧
    v.output ≤ (tm.data.total.getD ⟨0, 0⟩).output

-- ==========================================================================
-- Concrete inputs used by counterexamples and witnesses
-- ==========================================================================

/-- The raw 401 body of the spec's API-error scenario. -/
def errBody401 : Str :=
  "\x7b\"error\":\x7b\"message\":\"invalid key\"\x7d\x7d".data

/-- An OCR-mode configuration with a usable key. -/
def cfgApi : Config :=
  ⟨"https://api.example.com/v1".data, "sk-test".data, "gpt-4o".data,
   30, "translate this".data, [], false⟩

/-- Environment delivering OCR text "hello" and a mocked 401 response. -/
def envApi : WorkerEnv :=
  ⟨some ⟨ImageMode.RGB, 0⟩, Except.ok "hello".data, fun _ => [],
   Except.ok ⟨401, errBody401, none⟩⟩

/-- An OCR-mode configuration (key present). -/
def cfgOcr : Config :=
  ⟨"https://a".data, "k".data, "m".data, 30, "p".data, [], false⟩

/-- Environment whose OCR result is whitespace only. -/
def envOcrEmpty : WorkerEnv :=
  ⟨some ⟨ImageMode.RGB, 0⟩, Except.ok "  \n ".data, fun _ => [],
   Except.error "unused".data⟩

/-- An OCR-mode configuration with a whitespace-only api_key. -/
def cfgNoKey : Config :=
  ⟨"https://a".data, "   ".data, "m".data, 30, "p".data, [], false⟩

/-- Environment whose OCR result is the non-empty text "hello". -/
def envOcrOk : WorkerEnv :=
  ⟨some ⟨ImageMode.RGB, 0⟩, Except.ok "hello".data, fun _ => [],
   Except.error "x".data⟩

/-- A vision-mode configuration. -/
def cfgVis : Config :=
  ⟨"https://a".data, "k".data, "m".data, 30, "PROMPT".data, [], true⟩

/-- Environment delivering a decodable RGBA image in vision mode. -/
def envVis : WorkerEnv :=
  ⟨some ⟨ImageMode.RGBA, 7⟩, Except.error "no ocr".data,
   fun _ => [255, 216, 255], Except.error "net".data⟩

/-- A fresh TokenManager over the fallback ledger. -/
def tmFresh : TokenManager := ⟨0, 0, freshTMData⟩

/-- A concrete calendar-date key. -/
def date1 : Str := "2026-10-12".data

/-- A different calendar-date key. -/
def date2 : Str := "2026-10-13".data

-- ==========================================================================
-- Helper lemmas
-- ==========================================================================

theorem headOfDropWhileFails {α : Type} (p : α → Bool) (l : List α) (a : α)
    (h : (l.dropWhile p).head? = some a) : p a = false := by
  induction l with
  | nil => simp [List.dropWhile] at h
  | cons x t ih =>
    rw [List.dropWhile_cons] at h
    by_cases hx : p x
    · rw [if_pos hx] at h; exact ih h
    · rw [if_neg hx] at h
      simp only [List.head?_cons, Option.some.injEq] at h
      subst h
      simpa using hx

theorem getLastOfDropWhile {α : Type} (p : α → Bool) (l : List α) (a : α)
    (h : (l.dropWhile p).getLast? = some a) : l.getLast? = some a := by
  induction l with
  | nil => simp [List.dropWhile] at h
  | cons x t ih =>
    rw [List.dropWhile_cons] at h
    by_cases hx : p x
    · rw [if_pos hx] at h
      have ht := ih h
      cases t with
      | nil => simp at ht
      | cons b u => rw [List.getLast?_cons_cons]; exact ht
    · rwa [if_neg hx] at h

theorem dropWhileEqSelf {α : Type} (p : α → Bool) (l : List α)
    (h : ∀ a, l.head? = some a → p a = false) : l.dropWhile p = l := by
  cases l with
  | nil => simp
  | cons x t =>
    have hx := h x (by simp)
    simp [List.dropWhile_cons, hx]

theorem pyStripNoLeadSpace (s : Str) (a : Char)
    (h : (pyStrip s).head? = some a) : isPySpace a = false := by
  have h1 : (((s.dropWhile isPySpace).reverse.dropWhile isPySpace).reverse).head?
      = some a := h
  rw [List.head?_reverse] at h1
  have h2 := getLastOfDropWhile isPySpace _ a h1
  rw [List.getLast?_reverse] at h2
  exact headOfDropWhileFails isPySpace _ a h2

theorem pyStripNoTrailSpace (s : Str) (a : Char)
    (h : (pyStrip s).getLast? = some a) : isPySpace a = false := by
  have h1 : (((s.dropWhile isPySpace).reverse.dropWhile isPySpace).reverse).getLast?
      = some a := h
  rw [List.getLast?_reverse] at h1
  exact headOfDropWhileFails isPySpace _ a h1

/-- Python str.strip() is idempotent. -/
theorem pyStripIdem (s : Str) : pyStrip (pyStrip s) = pyStrip s := by
  have h1 : (pyStrip s).dropWhile isPySpace = pyStrip s :=
    dropWhileEqSelf isPySpace (pyStrip s) (fun a ha => pyStripNoLeadSpace s a ha)
  have h2 : ((pyStrip s).reverse).dropWhile isPySpace = (pyStrip s).reverse :=
    dropWhileEqSelf isPySpace ((pyStrip s).reverse)
      (fun a ha => pyStripNoTrailSpace s a (by rwa [List.head?_reverse] at ha))
  calc pyStrip (pyStrip s)
      = (((pyStrip s).dropWhile isPySpace).reverse.dropWhile isPySpace).reverse := rfl
    _ = (((pyStrip s)).reverse.dropWhile isPySpace).reverse := by rw [h1]
    _ = ((pyStrip s).reverse).reverse := by rw [h2]
    _ = pyStrip s := List.reverse_reverse _

theorem sendStage_messages (cfg : Config) (env : WorkerEnv)
    (m : List ChatMessage) : (sendStage cfg env m).messages = some m := by
  unfold sendStage
  repeat first
    | rfl
    | split

theorem sendStage_request (cfg : Config) (env : WorkerEnv)
    (m : List ChatMessage) (hk : pyStrip cfg.api_key ≠ []) :
    (sendStage cfg env m).request = some ⟨cfg.model, m, false⟩ := by
  unfold sendStage
  rw [if_neg hk]
  repeat first
    | rfl
    | split

theorem sendStage_key_blank (cfg : Config) (env : WorkerEnv)
    (m : List ChatMessage) (hk : pyStrip cfg.api_key = []) :
    sendStage cfg env m =
      ⟨WorkerOutcome.missingApiKey, some m, none, none, none, false⟩ := by
  unfold sendStage
  rw [if_pos hk]

theorem sendStage_apiError (cfg : Config) (env : WorkerEnv)
    (m : List ChatMessage) (resp : HttpResponse)
    (hk : pyStrip cfg.api_key ≠ []) (hr : env.response = Except.ok resp)
    (hs : resp.status_code ≠ 200) :
    (sendStage cfg env m).outcome =
      WorkerOutcome.apiError resp.status_code resp.text := by
  unfold sendStage
  rw [if_neg hk, hr]
  dsimp only
  rw [if_pos hs]

theorem run_advanced (cfg : Config) (env : WorkerEnv) (img : PILImage)
    (hdec : env.decoded = some img) (hadv : cfg.advanced_mode = true) :
    TranslationWorker.run cfg env = sendStage cfg env [visionMessage cfg env img] := by
  unfold TranslationWorker.run
  rw [hdec]
  dsimp only
  rw [hadv]
  rw [if_pos rfl]

theorem run_ocr_ok (cfg : Config) (env : WorkerEnv) (img : PILImage) (t : Str)
    (hdec : env.decoded = some img) (hadv : cfg.advanced_mode = false)
    (hocr : env.ocr = Except.ok t) (ht : pyStrip t ≠ []) :
    TranslationWorker.run cfg env = sendStage cfg env [ocrMessage cfg (pyStrip t)] := by
  unfold TranslationWorker.run
  rw [hdec]
  dsimp only
  rw [hadv]
  simp only [Bool.false_eq_true, if_false]
  rw [hocr]
  dsimp only
  rw [if_neg ht]

theorem run_ocr_empty (cfg : Config) (env : WorkerEnv) (img : PILImage) (t : Str)
    (hdec : env.decoded = some img) (hadv : cfg.advanced_mode = false)
    (hocr : env.ocr = Except.ok t) (ht : pyStrip t = []) :
    TranslationWorker.run cfg env =
      ⟨WorkerOutcome.ocrEmpty, none, none, none, none, false⟩ := by
  unfold TranslationWorker.run
  rw [hdec]
  dsimp only
  rw [hadv]
  simp only [Bool.false_eq_true, if_false]
  rw [hocr]
  dsimp only
  rw [if_pos ht]

theorem run_ocr_error (cfg : Config) (env : WorkerEnv) (img : PILImage) (e : Str)
    (hdec : env.decoded = some img) (hadv : cfg.advanced_mode = false)
    (hocr : env.ocr = Except.error e) :
    TranslationWorker.run cfg env =
      ⟨WorkerOutcome.ocrFailed e, none, none, none, none, false⟩ := by
  unfold TranslationWorker.run
  rw [hdec]
  dsimp only
  rw [hadv]
  simp only [Bool.false_eq_true, if_false]
  rw [hocr]

theorem histGet_histSet_same (h : List (Str × Counters)) (k : Str) (v : Counters) :
    histGet (histSet h k v) k = some v := by
  induction h with
  | nil => simp [histSet, histGet]
  | cons p t ih =>
    obtain ⟨k0, v0⟩ := p
    by_cases hk : k0 = k
    · simp [histSet, hk, histGet]
    · simp [histSet, hk, histGet, ih]

theorem histGet_histSet_other (h : List (Str × Counters)) (k k1 : Str)
    (v : Counters) (hne : k ≠ k1) :
    histGet (histSet h k v) k1 = histGet h k1 := by
  induction h with
  | nil => simp [histSet, histGet, hne]
  | cons p t ih =>
    obtain ⟨k0, v0⟩ := p
    by_cases hk : k0 = k
    · subst hk
      simp [histSet, histGet, hne]
    · simp [histSet, hk, histGet, ih]

/-- The grand total after one record_usage call. -/
theorem record_total (tm : TokenManager) (today : Str) (a b : Int) :
    (TokenManager.record_usage today tm a b).data.total =
      some ⟨(tm.data.total.getD ⟨0, 0⟩).input + a,
            (tm.data.total.getD ⟨0, 0⟩).output + b⟩ := rfl

/-- The same-day bucket after one record_usage call. -/
theorem record_todayBucket (tm : TokenManager) (today : Str) (a b : Int) :
    histGet ((TokenManager.record_usage today tm a b).data.history.getD []) today =
      some ⟨((histGet (tm.data.history.getD []) today).getD ⟨0, 0⟩).input + a,
            ((histGet (tm.data.history.getD []) today).getD ⟨0, 0⟩).output + b⟩ := by
  simp only [TokenManager.record_usage]
  by_cases hmem : (histGet (tm.data.history.getD []) today).isSome
  · obtain ⟨v, hv⟩ := Option.isSome_iff_exists.mp hmem
    simp [hmem, hv, histGet_histSet_same]
  · have hnone : histGet (tm.data.history.getD []) today = none :=
      Option.not_isSome_iff_eq_none.mp hmem
    simp [hmem, hnone, histGet_histSet_same]

/-- A record_usage call under a different date key leaves a bucket unchanged. -/
theorem record_otherBucket (tm : TokenManager) (d2 k : Str) (a b : Int)
    (hne : d2 ≠ k) :
    histGet ((TokenManager.record_usage d2 tm a b).data.history.getD []) k =
      histGet (tm.data.history.getD []) k := by
  simp only [TokenManager.record_usage]
  by_cases hmem : (histGet (tm.data.history.getD []) d2).isSome
  · simp [hmem, histGet_histSet_other _ _ _ _ hne]
  · simp [hmem, histGet_histSet_other _ _ _ _ hne]

-- ==========================================================================
-- Claim theorems
-- ==========================================================================

/-- C5: endpoint normalization is idempotent (normalize(normalize(url)) =
normalize(url)); an api_base already ending in the literal
"/chat/completions" sub-path is returned unchanged; otherwise the result is
api_base with trailing slashes stripped followed by "/chat/completions". -/
theorem endpoint_normalization_idempotent :
    (∀ url : Str, normalizeEndpoint (normalizeEndpoint url) = normalizeEndpoint url) ∧
    (∀ b : Str, chatCompletionsPath.isSuffixOf b = true → normalizeEndpoint b = b) ∧
    (∀ b : Str, chatCompletionsPath.isSuffixOf b = false →
      normalizeEndpoint b = rstripSlash b ++ chatCompletionsPath) := by
  refine ⟨?_, ?_, ?_⟩
  · intro url
    by_cases h : chatCompletionsPath.isSuffixOf url = true
    · simp [normalizeEndpoint, h]
    · have h2 : normalizeEndpoint url = rstripSlash url ++ chatCompletionsPath := by
        simp only [normalizeEndpoint]
        rw [if_neg (by simpa using h)]
      rw [h2]
      simp [normalizeEndpoint, isSuffixOfAppendSelf]
  · intro b h
    simp [normalizeEndpoint, h]
  · intro b h
    simp only [normalizeEndpoint]
    rw [if_neg (by simp [h])]

/-- Witness for C5 at concrete bases: one already carrying the sub-path,
one that needs it appended. -/
theorem endpoint_normalization_idempotent_witness :
    normalizeEndpoint "https://x/v1/chat/completions".data
      = "https://x/v1/chat/completions".data ∧
    normalizeEndpoint "https://x/v1/".data
      = rstripSlash "https://x/v1/".data ++ chatCompletionsPath :=
  ⟨endpoint_normalization_idempotent.2.1 _ (by decide),
   endpoint_normalization_idempotent.2.2 _ (by decide)⟩

/-- C4 counterexample: the proxy string "httpproxy" is non-blank and carries
no URL scheme, yet the code passes it through unchanged instead of prefixing
"http://", because startswith("http") is true for it. -/
theorem proxy_scheme_counterexample :
    pyStrip "httpproxy".data ≠ [] ∧
    specHasUrlScheme "httpproxy".data = false ∧
    normalizeProxy "httpproxy".data = some "httpproxy".data ∧
    "httpproxy".data ≠ "http://".data ++ "httpproxy".data := by
  refine ⟨by decide, by decide, by decide, by decide⟩

/-- C4 (amended): a proxy string whose stripped text is non-empty and does
not start with "http" yields the stripped text prefixed with "http://"; one
whose stripped text starts with "http" yields the stripped text unchanged;
an empty or blank proxy yields no proxy argument (None); the spec's three
examples hold. -/
theorem proxy_normalization_amended :
    (∀ p : Str, pyStrip p ≠ [] → "http".data.isPrefixOf (pyStrip p) = false →
      normalizeProxy p = some ("http://".data ++ pyStrip p)) ∧
    (∀ p : Str, pyStrip p ≠ [] → "http".data.isPrefixOf (pyStrip p) = true →
      normalizeProxy p = some (pyStrip p)) ∧
    (∀ p : Str, pyStrip p = [] → normalizeProxy p = none) ∧
    normalizeProxy "127.0.0.1:7890".data = some "http://127.0.0.1:7890".data ∧
    normalizeProxy "".data = none ∧
    normalizeProxy "http://x:1".data = some "http://x:1".data := by
  refine ⟨?_, ?_, ?_, by decide, by decide, by decide⟩
  · intro p hp hpref
    simp [normalizeProxy, pyStripIdem, hp, hpref]
  · intro p hp hpref
    simp [normalizeProxy, pyStripIdem, hp, hpref]
  · intro p hp
    simp [normalizeProxy, hp]

/-- Witness for C4 (amended) at a concrete scheme-less proxy string. -/
theorem proxy_normalization_amended_witness :
    normalizeProxy " 10.0.0.8:3128 ".data
      = some ("http://".data ++ pyStrip " 10.0.0.8:3128 ".data) :=
  proxy_normalization_amended.1 _ (by decide) (by decide)

/-- C1: single-flight scheduling.  (a) While a worker is running every
trigger is rejected with the "previous task in progress" outcome, the state
is untouched, capture does not run and no second worker is started.
(b) After any terminal outcome (finished or error signal) the scheduler is
no longer Running.  (c) When no worker is running a trigger is never
rejected with the "previous task in progress" outcome. -/
theorem single_flight_scheduling :
    (∀ (st : AppState) (r : Region) (env : TriggerEnv),
      isWorkerRunning st = true →
      MainApplication.trigger_translation st r env =
        ⟨TriggerOutcome.prevTask, st, false, false⟩) ∧
    (∀ st : AppState, isWorkerRunning (onWorkerTerminal st) = false) ∧
    (∀ (st : AppState) (r : Region) (env : TriggerEnv),
      isWorkerRunning st = false →
      (MainApplication.trigger_translation st r env).outcome ≠
        TriggerOutcome.prevTask) := by
  refine ⟨?_, ?_, ?_⟩
  · intro st r env h
    simp [MainApplication.trigger_translation, h]
  · intro st
    obtain ⟨w⟩ := st
    cases w <;> simp [onWorkerTerminal, isWorkerRunning]
  · intro st r env h
    unfold MainApplication.trigger_translation
    rw [h]
    simp only [Bool.false_eq_true, if_false]
    by_cases hr : r.w = 0 ∨ r.h = 0
    · simp [hr]
    · rw [if_neg hr]
      rcases env.capture with e | bytes <;> simp

/-- Witness for C1: a running worker rejects the trigger; after its terminal
outcome the next trigger is not rejected as busy. -/
theorem single_flight_scheduling_witness :
    MainApplication.trigger_translation ⟨some true⟩ ⟨0, 0, 10, 10⟩ ⟨Except.ok []⟩ =
      ⟨TriggerOutcome.prevTask, ⟨some true⟩, false, false⟩ ∧
    isWorkerRunning (onWorkerTerminal ⟨some true⟩) = false ∧
    (MainApplication.trigger_translation (onWorkerTerminal ⟨some true⟩)
        ⟨0, 0, 10, 10⟩ ⟨Except.ok []⟩).outcome ≠ TriggerOutcome.prevTask :=
  ⟨single_flight_scheduling.1 ⟨some true⟩ ⟨0, 0, 10, 10⟩ ⟨Except.ok []⟩ (by decide),
   single_flight_scheduling.2.1 ⟨some true⟩,
   single_flight_scheduling.2.2 (onWorkerTerminal ⟨some true⟩)
     ⟨0, 0, 10, 10⟩ ⟨Except.ok []⟩ (by decide)⟩

/-- C3 counterexample: the region [0, 0, -1, 10] violates the spec guard
width > 0 ∧ height > 0, yet the trigger does not fail fast with the
"no region" outcome: it invokes the capture stage and starts the worker,
because the code only rejects width == 0 or height == 0. -/
theorem region_guard_negative_counterexample :
    ¬((0 : Int) < (-1 : Int) ∧ (0 : Int) < (10 : Int)) ∧
    (MainApplication.trigger_translation ⟨none⟩ ⟨0, 0, -1, 10⟩
        ⟨Except.ok []⟩).outcome ≠ TriggerOutcome.noRegion ∧
    (MainApplication.trigger_translation ⟨none⟩ ⟨0, 0, -1, 10⟩
        ⟨Except.ok []⟩).captureInvoked = true ∧
    (MainApplication.trigger_translation ⟨none⟩ ⟨0, 0, -1, 10⟩
        ⟨Except.ok []⟩).workerStarted = true := by
  refine ⟨by decide, by decide, by decide, by decide⟩

/-- C3 (amended): on an accepted trigger the region is validated as
width ≠ 0 and height ≠ 0; for every region with width = 0 or height = 0 the
trigger fails fast with the "no region" outcome, leaves the state untouched
(so it never enters Running) and does not invoke the capture stage; any
region with width ≠ 0 and height ≠ 0 passes the guard. -/
theorem region_guard_amended :
    ∀ (st : AppState) (r : Region) (env : TriggerEnv),
      isWorkerRunning st = false →
      ((r.w = 0 ∨ r.h = 0) →
        MainApplication.trigger_translation st r env =
          ⟨TriggerOutcome.noRegion, st, false, false⟩) ∧
      (¬(r.w = 0 ∨ r.h = 0) →
        (MainApplication.trigger_translation st r env).outcome ≠
          TriggerOutcome.noRegion ∧
        (MainApplication.trigger_translation st r env).captureInvoked = true) := by
  intro st r env h
  constructor
  · intro hr
    unfold MainApplication.trigger_translation
    rw [h]
    simp only [Bool.false_eq_true, if_false]
    rw [if_pos hr]
  · intro hr
    unfold MainApplication.trigger_translation
    rw [h]
    simp only [Bool.false_eq_true, if_false]
    rw [if_neg hr]
    rcases env.capture with e | bytes <;> simp

/-- Witness for C3 (amended): a zero-width region fails fast from Idle. -/
theorem region_guard_amended_witness :
    MainApplication.trigger_translation ⟨none⟩ ⟨3, 4, 0, 25⟩ ⟨Except.ok []⟩ =
      ⟨TriggerOutcome.noRegion, ⟨none⟩, false, false⟩ :=
  (region_guard_amended ⟨none⟩ ⟨3, 4, 0, 25⟩ ⟨Except.ok []⟩ (by decide)).1
    (by decide)

/-- Decode-failure branch of the worker. -/
theorem run_decode_none (cfg : Config) (env : WorkerEnv)
    (hdec : env.decoded = none) :
    TranslationWorker.run cfg env =
      ⟨WorkerOutcome.imageDecodeFailed, none, none, none, none, false⟩ := by
  unfold TranslationWorker.run
  rw [hdec]

/-- C2 counterexample: for the spec's own scenario — a 401 response with
body \x7b"error":\x7b"message":"invalid key"\x7d\x7d — the worker's API
error carries the raw body text, not the structured message "invalid key";
no parse of the body is attempted. -/
theorem api_error_raw_body_counterexample :
    (TranslationWorker.run cfgApi envApi).outcome =
      WorkerOutcome.apiError 401 errBody401 ∧
    errBody401 ≠ "invalid key".data := by
  refine ⟨by decide, by decide⟩

/-- C2 (amended): for every run that reaches the network stage and receives
a response with status_code ≠ 200, the run terminates with ApiError carrying
that status and the raw body text. -/
theorem api_error_propagation_amended :
    ∀ (cfg : Config) (env : WorkerEnv) (resp : HttpResponse),
      env.decoded.isSome →
      (cfg.advanced_mode = true ∨ ∃ t, env.ocr = Except.ok t ∧ pyStrip t ≠ []) →
      pyStrip cfg.api_key ≠ [] →
      env.response = Except.ok resp →
      resp.status_code ≠ 200 →
      (TranslationWorker.run cfg env).outcome =
        WorkerOutcome.apiError resp.status_code resp.text := by
  intro cfg env resp hdec hmsg hkey hresp hs
  obtain ⟨img, himg⟩ := Option.isSome_iff_exists.mp hdec
  by_cases hadv : cfg.advanced_mode = true
  · rw [run_advanced cfg env img himg hadv]
    exact sendStage_apiError cfg env _ resp hkey hresp hs
  · have hadv2 : cfg.advanced_mode = false := by simpa using hadv
    rcases hmsg with h | ⟨t, hocr, ht⟩
    · exact absurd h hadv
    · rw [run_ocr_ok cfg env img t himg hadv2 hocr ht]
      exact sendStage_apiError cfg env _ resp hkey hresp hs

/-- Witness for C2 (amended) at the mocked 401 scenario. -/
theorem api_error_propagation_amended_witness :
    (TranslationWorker.run cfgApi envApi).outcome =
      WorkerOutcome.apiError 401 errBody401 :=
  api_error_propagation_amended cfgApi envApi ⟨401, errBody401, none⟩
    (by decide) (Or.inr ⟨"hello".data, rfl, by decide⟩) (by decide) rfl
    (by decide)

/-- C7: in OCR mode an OCR result that is empty after trimming terminates
the run with OcrEmpty and no network call; an OCR engine exception instead
yields OcrFailed, a distinct outcome. -/
theorem ocr_empty_no_network :
    (∀ (cfg : Config) (env : WorkerEnv) (img : PILImage) (t : Str),
      cfg.advanced_mode = false → env.decoded = some img →
      env.ocr = Except.ok t → pyStrip t = [] →
      (TranslationWorker.run cfg env).outcome = WorkerOutcome.ocrEmpty ∧
      (TranslationWorker.run cfg env).networkCalled = false) ∧
    (∀ (cfg : Config) (env : WorkerEnv) (img : PILImage) (e : Str),
      cfg.advanced_mode = false → env.decoded = some img →
      env.ocr = Except.error e →
      (TranslationWorker.run cfg env).outcome = WorkerOutcome.ocrFailed e) ∧
    (∀ e : Str, WorkerOutcome.ocrFailed e ≠ WorkerOutcome.ocrEmpty) := by
  refine ⟨?_, ?_, ?_⟩
  · intro cfg env img t hadv hdec hocr ht
    rw [run_ocr_empty cfg env img t hdec hadv hocr ht]
    exact ⟨rfl, rfl⟩
  · intro cfg env img e hadv hdec hocr
    rw [run_ocr_error cfg env img e hdec hadv hocr]
  · intro e
    simp

/-- Witness for C7 at a whitespace-only OCR result. -/
theorem ocr_empty_no_network_witness :
    (TranslationWorker.run cfgOcr envOcrEmpty).outcome = WorkerOutcome.ocrEmpty ∧
    (TranslationWorker.run cfgOcr envOcrEmpty).networkCalled = false :=
  ocr_empty_no_network.1 cfgOcr envOcrEmpty ⟨ImageMode.RGB, 0⟩ "  \n ".data
    rfl rfl rfl (by decide)

/-- C8: a run whose stripped api_key is empty and that reaches the request
stage (its message construction succeeded) terminates with MissingApiKey,
builds no payload and makes no network attempt. -/
theorem missing_key_guard :
    ∀ (cfg : Config) (env : WorkerEnv),
      pyStrip cfg.api_key = [] →
      env.decoded.isSome →
      (cfg.advanced_mode = true ∨ ∃ t, env.ocr = Except.ok t ∧ pyStrip t ≠ []) →
      (TranslationWorker.run cfg env).outcome = WorkerOutcome.missingApiKey ∧
      (TranslationWorker.run cfg env).networkCalled = false ∧
      (TranslationWorker.run cfg env).request = none := by
  intro cfg env hkey hdec hmsg
  obtain ⟨img, himg⟩ := Option.isSome_iff_exists.mp hdec
  by_cases hadv : cfg.advanced_mode = true
  · rw [run_advanced cfg env img himg hadv, sendStage_key_blank cfg env _ hkey]
    exact ⟨rfl, rfl, rfl⟩
  · have hadv2 : cfg.advanced_mode = false := by simpa using hadv
    rcases hmsg with h | ⟨t, hocr, ht⟩
    · exact absurd h hadv
    · rw [run_ocr_ok cfg env img t himg hadv2 hocr ht,
        sendStage_key_blank cfg env _ hkey]
      exact ⟨rfl, rfl, rfl⟩

/-- Witness for C8 at a whitespace-only api_key. -/
theorem missing_key_guard_witness :
    (TranslationWorker.run cfgNoKey envOcrOk).outcome =
      WorkerOutcome.missingApiKey ∧
    (TranslationWorker.run cfgNoKey envOcrOk).networkCalled = false ∧
    (TranslationWorker.run cfgNoKey envOcrOk).request = none :=
  missing_key_guard cfgNoKey envOcrOk (by decide) (by decide)
    (Or.inr ⟨"hello".data, rfl, by decide⟩)

/-- C6: for every decodable image in vision mode the built request contains
exactly one user message whose content has exactly two parts — the custom
prompt text and an image_url part whose URL is the data:image/jpeg;base64
URI of the base64-encoded quality-85 JPEG re-encoding — and once the key
guard passes the POSTed payload carries exactly that message list; RGBA and
palette images are first flattened to plain RGB. -/
theorem vision_request_shape :
    ∀ (cfg : Config) (env : WorkerEnv) (img : PILImage),
      cfg.advanced_mode = true → env.decoded = some img →
      (TranslationWorker.run cfg env).messages =
        some [⟨"user".data,
          MsgContent.parts [ContentPart.text cfg.custom_prompt,
            ContentPart.image_url (dataUriJpegHead ++
              base64Encode (env.jpegQ85 (flattenImage img)))]⟩] ∧
      (pyStrip cfg.api_key ≠ [] →
        (TranslationWorker.run cfg env).request =
          some ⟨cfg.model, [visionMessage cfg env img], false⟩) ∧
      ((img.mode = ImageMode.RGBA ∨ img.mode = ImageMode.P) →
        (flattenImage img).mode = ImageMode.RGB ∧
        flattenImage img = img.convertRGB) := by
  intro cfg env img hadv hdec
  refine ⟨?_, ?_, ?_⟩
  · rw [run_advanced cfg env img hdec hadv]
    exact sendStage_messages cfg env _
  · intro hk
    rw [run_advanced cfg env img hdec hadv]
    exact sendStage_request cfg env _ hk
  · intro hmode
    unfold flattenImage
    rw [if_pos hmode]
    exact ⟨rfl, rfl⟩

/-- Witness for C6 at a concrete RGBA image. -/
theorem vision_request_shape_witness :
    (TranslationWorker.run cfgVis envVis).messages =
      some [visionMessage cfgVis envVis ⟨ImageMode.RGBA, 7⟩] ∧
    (TranslationWorker.run cfgVis envVis).request =
      some ⟨cfgVis.model, [visionMessage cfgVis envVis ⟨ImageMode.RGBA, 7⟩], false⟩ ∧
    (flattenImage ⟨ImageMode.RGBA, 7⟩).mode = ImageMode.RGB :=
  ⟨(vision_request_shape cfgVis envVis ⟨ImageMode.RGBA, 7⟩ rfl rfl).1,
   (vision_request_shape cfgVis envVis ⟨ImageMode.RGBA, 7⟩ rfl rfl).2.1 (by decide),
   ((vision_request_shape cfgVis envVis ⟨ImageMode.RGBA, 7⟩ rfl rfl).2.2
     (Or.inl rfl)).1⟩

/-- C10: in OCR mode OCR runs before the api_key guard — an OCR result that
is empty after trimming yields OcrEmpty for every configuration, blank key
included, and OcrEmpty is distinct from MissingApiKey; conversely every run
that terminates with MissingApiKey decoded its image and already built its
messages (vision mode, or OCR mode with non-empty trimmed text). -/
theorem ocr_before_key_guard :
    (∀ (cfg : Config) (env : WorkerEnv) (img : PILImage) (t : Str),
      cfg.advanced_mode = false → env.decoded = some img →
      env.ocr = Except.ok t → pyStrip t = [] →
      (TranslationWorker.run cfg env).outcome = WorkerOutcome.ocrEmpty) ∧
    (WorkerOutcome.ocrEmpty ≠ WorkerOutcome.missingApiKey) ∧
    (∀ (cfg : Config) (env : WorkerEnv),
      (TranslationWorker.run cfg env).outcome = WorkerOutcome.missingApiKey →
      env.decoded.isSome ∧
      (cfg.advanced_mode = true ∨ ∃ t, env.ocr = Except.ok t ∧ pyStrip t ≠ [])) := by
  refine ⟨?_, by simp, ?_⟩
  · intro cfg env img t hadv hdec hocr ht
    rw [run_ocr_empty cfg env img t hdec hadv hocr ht]
  · intro cfg env h
    cases hdec : env.decoded with
    | none =>
      rw [run_decode_none cfg env hdec] at h
      exact absurd h (by simp)
    | some img =>
      refine ⟨rfl, ?_⟩
      by_cases hadv : cfg.advanced_mode = true
      · exact Or.inl hadv
      · have hadv2 : cfg.advanced_mode = false := by simpa using hadv
        right
        cases hocr : env.ocr with
        | error e =>
          rw [run_ocr_error cfg env img e hdec hadv2 hocr] at h
          exact absurd h (by simp)
        | ok t =>
          refine ⟨t, rfl, ?_⟩
          by_cases ht : pyStrip t = []
          · rw [run_ocr_empty cfg env img t hdec hadv2 hocr ht] at h
            exact absurd h (by simp)
          · exact ht

/-- Witness for C10: empty OCR with a blank key still yields OcrEmpty. -/
theorem ocr_before_key_guard_witness :
    (TranslationWorker.run cfgNoKey envOcrEmpty).outcome =
      WorkerOutcome.ocrEmpty :=
  ocr_before_key_guard.1 cfgNoKey envOcrEmpty ⟨ImageMode.RGB, 0⟩ "  \n ".data
    rfl rfl rfl (by decide)

/-- C9: usage accounting is additive and monotonic.  After record(a,b) then
record(c,d) on the same date, total.input grows by exactly a+c and
total.output by exactly b+d, and the same amounts land in that date's
bucket; a record under a different date leaves today's bucket untouched;
with non-negative amounts a single record never decrements the totals, the
domination invariant total ≥ every daily bucket is preserved by record, and
it holds for the fresh (empty) ledger. -/
theorem usage_accounting_additive_monotonic :
    ∀ (tm : TokenManager) (today : Str) (a b c d : Int),
      0 ≤ a → 0 ≤ b → 0 ≤ c → 0 ≤ d →
      ((TokenManager.get_stats today
          (TokenManager.record_usage today
            (TokenManager.record_usage today tm a b) c d)).total.input =
        (TokenManager.get_stats today tm).total.input + (a + c) ∧
       (TokenManager.get_stats today
          (TokenManager.record_usage today
            (TokenManager.record_usage today tm a b) c d)).total.output =
        (TokenManager.get_stats today tm).total.output + (b + d)) ∧
      ((TokenManager.get_stats today
          (TokenManager.record_usage today
            (TokenManager.record_usage today tm a b) c d)).today.input =
        (TokenManager.get_stats today tm).today.input + (a + c) ∧
       (TokenManager.get_stats today
          (TokenManager.record_usage today
            (TokenManager.record_usage today tm a b) c d)).today.output =
        (TokenManager.get_stats today tm).today.output + (b + d)) ∧
      (∀ d2 : Str, d2 ≠ today →
        (TokenManager.get_stats today (TokenManager.record_usage d2 tm a b)).today =
          (TokenManager.get_stats today tm).today) ∧
      ((TokenManager.get_stats today tm).total.input ≤
        (TokenManager.get_stats today
          (TokenManager.record_usage today tm a b)).total.input ∧
       (TokenManager.get_stats today tm).total.output ≤
        (TokenManager.get_stats today
          (TokenManager.record_usage today tm a b)).total.output) ∧
      (ledgerInv tm → ledgerInv (TokenManager.record_usage today tm a b)) ∧
      ledgerInv tmFresh := by
  intro tm today a b c d ha hb hc hd
  refine ⟨⟨?_, ?_⟩, ⟨?_, ?_⟩, ?_, ⟨?_, ?_⟩, ?_, ?_⟩
  · simp [TokenManager.get_stats, record_total]
    omega
  · simp [TokenManager.get_stats, record_total]
    omega
  · simp [TokenManager.get_stats, record_todayBucket]
    omega
  · simp [TokenManager.get_stats, record_todayBucket]
    omega
  · intro d2 hne
    simp only [TokenManager.get_stats]
    rw [record_otherBucket tm d2 today a b hne]
  · simp [TokenManager.get_stats, record_total]
    omega
  · simp [TokenManager.get_stats, record_total]
    omega
  · intro hinv
    obtain ⟨hti, hto, hbuckets⟩ := hinv
    refine ⟨?_, ?_, ?_⟩
    · simp [record_total]
      omega
    · simp [record_total]
      omega
    · intro k v hk
      by_cases hkt : k = today
      · subst hkt
        rw [record_todayBucket] at hk
        have hv := Option.some.inj hk
        have hci : v.input =
            ((histGet (tm.data.history.getD []) k).getD ⟨0, 0⟩).input + a := by
          rw [← hv]
        have hco : v.output =
            ((histGet (tm.data.history.getD []) k).getD ⟨0, 0⟩).output + b := by
          rw [← hv]
        cases hB : histGet (tm.data.history.getD []) k with
        | none =>
          rw [hB] at hci hco
          simp only [Option.getD_none] at hci hco
          simp [record_total]
          omega
        | some v0 =>
          have hd0 := hbuckets k v0 hB
          rw [hB] at hci hco
          simp only [Option.getD_some] at hci hco
          simp [record_total]
          omega
      · rw [record_otherBucket tm today k a b (fun hh => hkt hh.symm)] at hk
        have hd0 := hbuckets k v hk
        simp [record_total]
        omega
  · simp [ledgerInv, tmFresh, freshTMData, histGet]

/-- Witness for C9 over the fresh ledger with amounts 1, 2, 3, 4. -/
theorem usage_accounting_additive_monotonic_witness :
    (TokenManager.get_stats date1
      (TokenManager.record_usage date1
        (TokenManager.record_usage date1 tmFresh 1 2) 3 4)).total.input =
      (TokenManager.get_stats date1 tmFresh).total.input + (1 + 3) :=
  ((usage_accounting_additive_monotonic tmFresh date1 1 2 3 4
    (by decide) (by decide) (by decide) (by decide)).1).1
